import Mathlib

set_option linter.all false
set_option maxRecDepth 10000

/-!
Verification of the socket command-dispatch core of
`src/service/socket_server.c`: a shallow embedding of the command
handlers, the command registry, `process_command`, the per-connection
body of `socket_server_thread`, and the setup path of
`socket_server_init`, with theorems about their behavior.

Conventions of the embedding:
* C strings are Lean `String`s (NUL-free byte sequences, one `Char` per
  byte for the ASCII data the protocol carries).
* The external track-manager subsystem is an abstract state machine
  `Subsystem σ`; each handler records the subsystem calls it makes in a
  trace, so "the subsystem is never invoked" is `calls = []`.
* `snprintf(buf, n, ...)` keeps at most `n - 1` bytes of its formatted
  output; `snprintfStr` models that.
-/

/-- A call made by a command handler into the external track-manager
subsystem (`track_manager_play`, `track_manager_stop`,
`track_manager_stop_all`). -/
inductive SubsysCall where
  | play (id : String)
  | stop (id : String)
  | stopAll
deriving DecidableEq

/-- The external playback subsystem as an abstract state machine over a
state type `σ`: each operation returns its success flag and the new
subsystem state. -/
structure Subsystem (σ : Type) where
  play : σ → String → Bool × σ
  stop : σ → String → Bool × σ
  stopAll : σ → Bool × σ

/-- Result of one command handler: the C return value, the text left in
the response buffer, the subsystem state afterwards, and the trace of
subsystem calls made. -/
structure HandlerResult (σ : Type) where
  ret : Int
  response : String
  state : σ
  calls : List SubsysCall
deriving DecidableEq

/-- `snprintf` into a buffer of `size` bytes: at most `size - 1` bytes
of the formatted string are kept (plus the terminating NUL). -/
def snprintfStr (size : Nat) (s : String) : String :=
  String.mk (s.data.take (size - 1))

/-- `handle_play` from the source: a NULL or empty track id is rejected
without calling the subsystem; otherwise `track_manager_play` decides
between the `OK` and the `ERROR` reply. -/
def handle_play {σ : Type} (mgr : Subsystem σ) (st : σ) (track_id : Option String)
    (resp_size : Nat) : HandlerResult σ :=
  match track_id with
  | none => ⟨-1, snprintfStr resp_size "ERROR: Missing track ID", st, []⟩
  | some tid =>
    if tid = "" then
      ⟨-1, snprintfStr resp_size "ERROR: Missing track ID", st, []⟩
    else
      let r := mgr.play st tid
      if r.1 then
        ⟨0, snprintfStr resp_size ("OK: Playing track " ++ tid), r.2,
          [SubsysCall.play tid]⟩
      else
        ⟨-1, snprintfStr resp_size ("ERROR: Failed to play track " ++ tid), r.2,
          [SubsysCall.play tid]⟩

/-- `handle_stop` from the source, same shape as `handle_play`. -/
def handle_stop {σ : Type} (mgr : Subsystem σ) (st : σ) (track_id : Option String)
    (resp_size : Nat) : HandlerResult σ :=
  match track_id with
  | none => ⟨-1, snprintfStr resp_size "ERROR: Missing track ID", st, []⟩
  | some tid =>
    if tid = "" then
      ⟨-1, snprintfStr resp_size "ERROR: Missing track ID", st, []⟩
    else
      let r := mgr.stop st tid
      if r.1 then
        ⟨0, snprintfStr resp_size ("OK: Stopped track " ++ tid), r.2,
          [SubsysCall.stop tid]⟩
      else
        ⟨-1, snprintfStr resp_size ("ERROR: Failed to stop track " ++ tid), r.2,
          [SubsysCall.stop tid]⟩

/-- `handle_stop_all` from the source: the argument is ignored and
`track_manager_stop_all` decides the reply. -/
def handle_stop_all {σ : Type} (mgr : Subsystem σ) (st : σ) (arg : Option String)
    (resp_size : Nat) : HandlerResult σ :=
  let r := mgr.stopAll st
  if r.1 then
    ⟨0, snprintfStr resp_size "OK: Stopped all tracks", r.2, [SubsysCall.stopAll]⟩
  else
    ⟨-1, snprintfStr resp_size "ERROR: Failed to stop all tracks", r.2,
      [SubsysCall.stopAll]⟩

/-- `handle_list` from the source: a placeholder that succeeds without
touching the subsystem. -/
def handle_list {σ : Type} (mgr : Subsystem σ) (st : σ) (arg : Option String)
    (resp_size : Nat) : HandlerResult σ :=
  ⟨0, snprintfStr resp_size "OK: Track listing not yet implemented", st, []⟩

/-- `handle_status` from the source: a placeholder that succeeds without
touching the subsystem. -/
def handle_status {σ : Type} (mgr : Subsystem σ) (st : σ) (arg : Option String)
    (resp_size : Nat) : HandlerResult σ :=
  ⟨0, snprintfStr resp_size "OK: Status not yet implemented", st, []⟩

/-- `handle_reload` from the source: a placeholder that succeeds without
touching the subsystem. -/
def handle_reload {σ : Type} (mgr : Subsystem σ) (st : σ) (arg : Option String)
    (resp_size : Nat) : HandlerResult σ :=
  ⟨0, snprintfStr resp_size "OK: Reload signal sent", st, []⟩

/-- The type of one command handler, as in the C `command_handler_t`. -/
abbrev CommandHandler (σ : Type) : Type :=
  Subsystem σ → σ → Option String → Nat → HandlerResult σ

/-- The fixed command table `COMMANDS` from the source; the
`{NULL, NULL}` terminator is the end of the list. -/
def COMMANDS (σ : Type) : List (String × CommandHandler σ) :=
  [("play", handle_play), ("stop", handle_stop), ("stop-all", handle_stop_all),
   ("list", handle_list), ("status", handle_status), ("reload", handle_reload)]

/-- The parse done by `process_command` on the (already truncated)
command buffer. `strtok(cmd_buf, " ")` skips leading space characters
and yields the maximal space-free token as the keyword (NULL, modelled
`none`, when the buffer holds only spaces); `strtok(NULL, "")` then
yields everything after the single space that terminated the keyword,
or NULL when nothing follows. -/
def splitCmd (s : String) : Option (String × Option String) :=
  let l := s.data.dropWhile (fun c => c == ' ')
  if l = [] then none
  else
    let kw := String.mk (l.takeWhile (fun c => c != ' '))
    let rest := l.dropWhile (fun c => c != ' ')
    if rest = [] then some (kw, none)
    else if rest.tail = [] then some (kw, none)
    else some (kw, some (String.mk rest.tail))

/-- Capacity of the local `cmd_buf[256]` in `process_command`. -/
def CMD_BUF_SIZE : Nat := 256

/-- `strncpy(cmd_buf, cmd_str, sizeof(cmd_buf) - 1)` followed by
`cmd_buf[sizeof(cmd_buf) - 1] = 0`: the input truncated to the buffer
capacity minus one bytes. -/
def truncateToCmdBuf (s : String) : String :=
  String.mk (s.data.take (CMD_BUF_SIZE - 1))

/-- `process_command` from the source: truncate into `cmd_buf`, split
into keyword and argument, look the keyword up in `COMMANDS` by exact
string compare in table order, and run its handler; the empty command
and a registry miss produce `ERROR` replies without touching the
subsystem. -/
def process_command {σ : Type} (cmd_str : String) (mgr : Subsystem σ) (st : σ)
    (resp_size : Nat) : HandlerResult σ :=
  match splitCmd (truncateToCmdBuf cmd_str) with
  | none => ⟨-1, snprintfStr resp_size "ERROR: Empty command", st, []⟩
  | some (cmd, arg) =>
    match (COMMANDS σ).find? (fun p => p.1 == cmd) with
    | some p => p.2 mgr st arg resp_size
    | none =>
      ⟨-1, snprintfStr resp_size ("ERROR: Unknown command \x27" ++ cmd ++ "\x27"),
        st, []⟩

/-- A concrete subsystem over the trivial state whose operations all
report success; used to instantiate universally quantified theorems. -/
def unitSub : Subsystem Unit where
  play := fun s _ => (true, s)
  stop := fun s _ => (true, s)
  stopAll := fun s => (true, s)

/-- A concrete subsystem over the trivial state whose operations all
report failure. -/
def unitSubFail : Subsystem Unit where
  play := fun s _ => (false, s)
  stop := fun s _ => (false, s)
  stopAll := fun s => (false, s)

/-- A whitespace character in the sense of the spec sentence "splits on
the first whitespace run". -/
def wsChar (c : Char) : Bool :=
  c == ' ' || c == '\t' || c == '\n' || c == '\r'

/-- Modelled from the spec (section 4.2), for comparison with
`splitCmd`: "Splits on the first whitespace run; everything before is
the keyword, everything after (including embedded whitespace, with no
further splitting) is the argument." -/
def splitSpecRun (s : String) : String × Option String :=
  let kw := s.data.takeWhile (fun c => !(wsChar c))
  let rest := s.data.dropWhile (fun c => !(wsChar c))
  (String.mk kw,
    match rest with
    | [] => none
    | _ :: _ => some (String.mk (rest.dropWhile wsChar)))

/-- `s` begins with `tag`, byte for byte. -/
def strBeginsWith (tag s : String) : Bool :=
  s.data.take tag.data.length == tag.data

/-- One externally visible I/O action of the connection body of
`socket_server_thread`. -/
inductive ConnAction where
  | processedCmd (req : String)
  | wroteResponse (resp : String)
  | closedConn
deriving DecidableEq

/-- Outcome of one pass through the body of the accept loop: the I/O
actions taken on the client socket, the subsystem state afterwards, and
whether control returns to the top of the `while (ctx->running)`
loop. -/
structure ConnStep (σ : Type) where
  actions : List ConnAction
  state : σ
  keepLooping : Bool
deriving DecidableEq

/-- Size of `char buffer[1024]` and `char response[1024]` in
`socket_server_thread`. -/
def THREAD_BUF_SIZE : Nat := 1024

/-- The body of the accept loop in `socket_server_thread` after a
successful `accept`: `read` returned `bytes_read` bytes holding `data`.
When `bytes_read > 0` the command is processed and the response written
back; otherwise nothing is processed and nothing is written. The client
socket is closed either way and control returns to the loop head. -/
def serve_connection {σ : Type} (mgr : Subsystem σ) (st : σ) (bytes_read : Int)
    (data : String) : ConnStep σ :=
  if bytes_read > 0 then
    let r := process_command data mgr st THREAD_BUF_SIZE
    ⟨[ConnAction.processedCmd data, ConnAction.wroteResponse r.response,
      ConnAction.closedConn], r.state, true⟩
  else
    ⟨[ConnAction.closedConn], st, true⟩

/-- Outcome of the OS calls `socket_server_init` makes, as an oracle:
whether `calloc` succeeds, the descriptor `socket(2)` returns (`none`
on failure), and whether `bind` and `listen` succeed. -/
structure OsBehavior where
  alloc_ok : Bool
  socket_fd : Option Nat
  bind_ok : Bool
  listen_ok : Bool
deriving DecidableEq

/-- A resource-relevant action taken by `socket_server_init`. -/
inductive ResAction where
  | alloc_ctx
  | free_ctx
  | unlink_path
  | open_fd (fd : Nat)
  | close_fd (fd : Nat)
  | chmod_path
deriving DecidableEq

/-- The listener-context fields `socket_server_init` settles before the
thread is started. -/
structure SocketServerCtx where
  server_fd : Nat
  running : Bool
deriving DecidableEq

/-- `socket_server_init` from the source: allocate the context, unlink
any stale socket file, then create, bind and listen on the socket; on
any failure close whatever descriptor was opened, free the context and
return NULL (`none`). The second component is the trace of resource
actions taken. -/
def socket_server_init (os : OsBehavior) : Option SocketServerCtx × List ResAction :=
  if os.alloc_ok then
    let t0 := [ResAction.alloc_ctx, ResAction.unlink_path]
    match os.socket_fd with
    | none => (none, t0 ++ [ResAction.free_ctx])
    | some fd =>
      if os.bind_ok then
        if os.listen_ok then
          (some ⟨fd, false⟩, t0 ++ [ResAction.open_fd fd, ResAction.chmod_path])
        else
          (none, t0 ++ [ResAction.open_fd fd, ResAction.close_fd fd,
            ResAction.free_ctx])
      else
        (none, t0 ++ [ResAction.open_fd fd, ResAction.close_fd fd,
          ResAction.free_ctx])
  else
    (none, [])

/-- Transcribed from the amended parser description, for comparison
with `splitCmd`: skip leading space characters, one at a time. -/
def skipSpaces : List Char → List Char
  | [] => []
  | c :: cs => if c = ' ' then skipSpaces cs else c :: cs

/-- Transcribed from the amended parser description: scan to the first
space character; everything before it is the keyword and, when a space
is found, everything after that single space is handed on whole, with
no further splitting. -/
def splitAtFirstSpace : List Char → List Char × Option (List Char)
  | [] => ([], none)
  | c :: cs =>
    if c = ' ' then ([], some cs)
    else
      let r := splitAtFirstSpace cs
      (c :: r.1, r.2)

/-- The amended parser description in full, for comparison with
`splitCmd`: skip leading spaces (an all-space or empty line fails as
the empty command); the keyword is everything before the first space
character; the argument is exactly everything after that single space,
and is absent when no space follows the keyword or when nothing
follows that space. -/
def splitFirstSpace (s : String) : Option (String × Option String) :=
  let l := skipSpaces s.data
  if l = [] then none
  else
    let r := splitAtFirstSpace l
    some (String.mk r.1,
      match r.2 with
      | none => none
      | some t => if t = [] then none else some (String.mk t))

/-- A formatted string short enough for its buffer passes through
`snprintf` unchanged. -/
theorem snprintfStr_of_le {n : Nat} {s : String} (h : s.data.length ≤ n - 1) :
    snprintfStr n s = s := by
  unfold snprintfStr
  rw [List.take_of_length_le h]

/-- C1: with the argument absent or empty, `handle_play` and
`handle_stop` reply exactly `ERROR: Missing track ID`, fail (return
`-1`), leave the subsystem state untouched, and make no subsystem
call. -/
theorem play_stop_missing_id {σ : Type} (mgr : Subsystem σ) (st : σ)
    (a : Option String) (h : a = none ∨ a = some "") :
    handle_play mgr st a 1024 = ⟨-1, "ERROR: Missing track ID", st, []⟩ ∧
    handle_stop mgr st a 1024 = ⟨-1, "ERROR: Missing track ID", st, []⟩ := by
  have hmsg : snprintfStr 1024 "ERROR: Missing track ID" = "ERROR: Missing track ID" := by
    decide
  rcases h with h | h <;> subst h <;>
    exact ⟨by simp [handle_play, hmsg], by simp [handle_stop, hmsg]⟩

/-- Witness for `play_stop_missing_id`: the absent argument. -/
theorem play_stop_missing_id_witness :
    ((none : Option String) = none ∨ (none : Option String) = some "") ∧
    (handle_play unitSub () none 1024 = ⟨-1, "ERROR: Missing track ID", (), []⟩ ∧
     handle_stop unitSub () none 1024 = ⟨-1, "ERROR: Missing track ID", (), []⟩) :=
  ⟨Or.inl rfl, play_stop_missing_id unitSub () none (Or.inl rfl)⟩

/-- C9: dispatching `stop-all` twice in a row replies
`OK: Stopped all tracks` both times, from any subsystem state, whenever
the subsystem reports success for both `stop_all` calls. -/
theorem stop_all_idempotent {σ : Type} (mgr : Subsystem σ) (st : σ)
    (h1 : (mgr.stopAll st).1 = true)
    (h2 : (mgr.stopAll (mgr.stopAll st).2).1 = true) :
    (process_command "stop-all" mgr st 1024).response = "OK: Stopped all tracks" ∧
    (process_command "stop-all" mgr
        (process_command "stop-all" mgr st 1024).state 1024).response =
      "OK: Stopped all tracks" := by
  have hmsg : snprintfStr 1024 "OK: Stopped all tracks" = "OK: Stopped all tracks" := by
    decide
  have hd : ∀ st' : σ, process_command "stop-all" mgr st' 1024 =
      handle_stop_all mgr st' none 1024 := fun _ => rfl
  have hstate : (handle_stop_all mgr st none 1024).state = (mgr.stopAll st).2 := by
    simp [handle_stop_all, h1]
  constructor
  · rw [hd st]
    simp [handle_stop_all, h1, hmsg]
  · rw [hd st, hd, hstate]
    simp [handle_stop_all, h2, hmsg]

/-- Witness for `stop_all_idempotent`: the always-succeeding subsystem
over the trivial state. -/
theorem stop_all_idempotent_witness :
    ((unitSub.stopAll ()).1 = true ∧
     (unitSub.stopAll (unitSub.stopAll ()).2).1 = true) ∧
    ((process_command "stop-all" unitSub () 1024).response = "OK: Stopped all tracks" ∧
     (process_command "stop-all" unitSub
        (process_command "stop-all" unitSub () 1024).state 1024).response =
      "OK: Stopped all tracks") :=
  ⟨⟨rfl, rfl⟩, stop_all_idempotent unitSub () rfl rfl⟩

/-- C5: on input longer than `cmd_buf`, `process_command` behaves
exactly as on the input truncated to the buffer capacity minus one
bytes — the remainder is discarded and processing continues normally. -/
theorem truncation_equiv {σ : Type} (mgr : Subsystem σ) (st : σ) (s : String)
    (h : CMD_BUF_SIZE < s.length) (n : Nat) :
    process_command s mgr st n =
      process_command (String.mk (s.data.take (CMD_BUF_SIZE - 1))) mgr st n := by
  unfold process_command truncateToCmdBuf
  simp [List.take_take]

/-- Witness for `truncation_equiv`: a 300-byte input. -/
theorem truncation_equiv_witness :
    CMD_BUF_SIZE < (String.mk (List.replicate 300 'a')).length ∧
    process_command (String.mk (List.replicate 300 'a')) unitSub () 1024 =
      process_command
        (String.mk ((String.mk (List.replicate 300 'a')).data.take (CMD_BUF_SIZE - 1)))
        unitSub () 1024 :=
  ⟨by decide, truncation_equiv unitSub () (String.mk (List.replicate 300 'a'))
    (by decide) 1024⟩

/-- `takeWhile` never lengthens a list. -/
theorem takeWhile_len_le (p : Char → Bool) (l : List Char) :
    (l.takeWhile p).length ≤ l.length := by
  induction l with
  | nil => simp
  | cons a l ih =>
    rw [List.takeWhile_cons]
    split
    · simpa using ih
    · simp

/-- `dropWhile` never lengthens a list. -/
theorem dropWhile_len_le (p : Char → Bool) (l : List Char) :
    (l.dropWhile p).length ≤ l.length := by
  induction l with
  | nil => simp
  | cons a l ih =>
    rw [List.dropWhile_cons]
    split
    · exact le_trans ih (Nat.le_succ _)
    · simp

/-- The keyword `splitCmd` extracts is never longer than its input. -/
theorem splitCmd_keyword_le (s k : String) (a : Option String)
    (h : splitCmd s = some (k, a)) : k.data.length ≤ s.data.length := by
  have hd : (s.data.dropWhile (fun c => c == ' ')).length ≤ s.data.length :=
    dropWhile_len_le _ _
  have ht : ((s.data.dropWhile (fun c => c == ' ')).takeWhile
      (fun c => c != ' ')).length ≤
      (s.data.dropWhile (fun c => c == ' ')).length := takeWhile_len_le _ _
  simp only [splitCmd] at h
  split at h
  · exact absurd h (by simp)
  · split at h
    · simp only [Option.some.injEq, Prod.mk.injEq] at h
      obtain ⟨h1, -⟩ := h
      subst h1
      exact le_trans ht hd
    · split at h
      · simp only [Option.some.injEq, Prod.mk.injEq] at h
        obtain ⟨h1, -⟩ := h
        subst h1
        exact le_trans ht hd
      · simp only [Option.some.injEq, Prod.mk.injEq] at h
        obtain ⟨h1, -⟩ := h
        subst h1
        exact le_trans ht hd

/-- Scanning a space-free segment followed by a space: the segment is
taken whole and the scan stops at the space. -/
theorem split_at_space (l rest : List Char) (h : ∀ c ∈ l, c ≠ ' ') :
    (l ++ ' ' :: rest).takeWhile (fun c => c != ' ') = l ∧
    (l ++ ' ' :: rest).dropWhile (fun c => c != ' ') = ' ' :: rest := by
  induction l with
  | nil =>
    constructor
    · simp
    · simp
  | cons a l ih =>
    have ha : (a != ' ') = true := by
      simp only [bne_iff_ne, ne_eq]
      exact h a (List.mem_cons_self a l)
    obtain ⟨ih1, ih2⟩ := ih (fun c hc => h c (List.mem_cons_of_mem a hc))
    constructor
    · rw [List.cons_append,
        List.takeWhile_cons_of_pos (p := fun c => c != ' ') ha, ih1]
    · rw [List.cons_append,
        List.dropWhile_cons_of_pos (p := fun c => c != ' ') ha, ih2]

/-- Scanning a fully space-free list takes all of it. -/
theorem takeWhile_all (l : List Char) (h : ∀ c ∈ l, c ≠ ' ') :
    l.takeWhile (fun c => c != ' ') = l ∧
    l.dropWhile (fun c => c != ' ') = [] := by
  induction l with
  | nil => exact ⟨rfl, rfl⟩
  | cons a l ih =>
    have ha : (a != ' ') = true := by
      simp only [bne_iff_ne, ne_eq]
      exact h a (List.mem_cons_self a l)
    obtain ⟨ih1, ih2⟩ := ih (fun c hc => h c (List.mem_cons_of_mem a hc))
    exact ⟨by rw [List.takeWhile_cons_of_pos (p := fun c => c != ' ') ha, ih1],
      by rw [List.dropWhile_cons_of_pos (p := fun c => c != ' ') ha, ih2]⟩

/-- `splitCmd` on `<kw> <arg>` with a non-empty space-free keyword and a
non-empty argument: the keyword is everything before the first space
and the argument everything after it; with no space the argument is
absent. -/
theorem splitCmd_keyword_arg (l m : List Char) (hl : l ≠ [])
    (hsp : ∀ c ∈ l, c ≠ ' ') (hm : m ≠ []) :
    splitCmd (String.mk (l ++ ' ' :: m)) =
      some (String.mk l, some (String.mk m)) ∧
    splitCmd (String.mk l) = some (String.mk l, none) := by
  obtain ⟨c, cs, rfl⟩ : ∃ c cs, l = c :: cs := by
    cases l with
    | nil => exact absurd rfl hl
    | cons c cs => exact ⟨c, cs, rfl⟩
  have hc : ¬ ((c == ' ') = true) := by
    simp only [beq_iff_eq]
    exact hsp c (List.mem_cons_self c cs)
  obtain ⟨ht, hd⟩ := split_at_space (c :: cs) m hsp
  obtain ⟨ht2, hd2⟩ := takeWhile_all (c :: cs) hsp
  constructor
  · simp only [splitCmd]
    rw [List.cons_append,
      List.dropWhile_cons_of_neg (p := fun c => c == ' ') hc,
      ← List.cons_append, ht, hd]
    simp [hm]
  · simp only [splitCmd]
    rw [List.dropWhile_cons_of_neg (p := fun c => c == ' ') hc, ht2, hd2]
    simp

/-- C2: any input whose parsed keyword `k` is none of the six registered
commands fails with the reply `ERROR: Unknown command <k>` (the keyword
quoted), `k`
reproduced verbatim, and the subsystem untouched. -/
theorem unknown_command_reply {σ : Type} (mgr : Subsystem σ) (st : σ)
    (s k : String) (arg : Option String)
    (hp : splitCmd (truncateToCmdBuf s) = some (k, arg))
    (hk : k ∉ ["play", "stop", "stop-all", "list", "status", "reload"]) :
    process_command s mgr st 1024 =
      ⟨-1, "ERROR: Unknown command \x27" ++ k ++ "\x27", st, []⟩ := by
  have hlen : k.data.length ≤ 255 := by
    have h1 := splitCmd_keyword_le _ _ _ hp
    have h2 : (truncateToCmdBuf s).data.length ≤ 255 := by
      show (s.data.take 255).length ≤ 255
      rw [List.length_take]
      exact Nat.min_le_left _ _
    omega
  have hne : ¬ k = "play" ∧ ¬ k = "stop" ∧ ¬ k = "stop-all" ∧ ¬ k = "list" ∧
      ¬ k = "status" ∧ ¬ k = "reload" := by
    simpa [not_or] using hk
  obtain ⟨n1, n2, n3, n4, n5, n6⟩ := hne
  have hfind : (COMMANDS σ).find? (fun p => p.1 == k) = none := by
    rw [List.find?_eq_none]
    intro x hx
    simp only [COMMANDS, List.mem_cons, List.not_mem_nil, or_false] at hx
    rcases hx with h | h | h | h | h | h <;> subst h <;>
      simp only [beq_iff_eq] <;> intro he
    · exact n1 he.symm
    · exact n2 he.symm
    · exact n3 he.symm
    · exact n4 he.symm
    · exact n5 he.symm
    · exact n6 he.symm
  have hmsg : snprintfStr 1024 ("ERROR: Unknown command \x27" ++ k ++ "\x27") =
      "ERROR: Unknown command \x27" ++ k ++ "\x27" := by
    apply snprintfStr_of_le
    show (("ERROR: Unknown command \x27".data ++ k.data) ++ "\x27".data).length ≤ 1023
    rw [List.length_append, List.length_append]
    have hA : "ERROR: Unknown command \x27".data.length = 24 := rfl
    have hB : "\x27".data.length = 1 := rfl
    omega
  simp only [process_command, hp, hfind, hmsg]

/-- Witness for `unknown_command_reply`: the unregistered keyword
`frobnicate`. -/
theorem unknown_command_reply_witness :
    (splitCmd (truncateToCmdBuf "frobnicate now") =
        some ("frobnicate", some "now") ∧
      "frobnicate" ∉ ["play", "stop", "stop-all", "list", "status", "reload"]) ∧
    process_command "frobnicate now" unitSub () 1024 =
      ⟨-1, "ERROR: Unknown command \x27frobnicate\x27", (), []⟩ :=
  ⟨⟨by decide, by decide⟩,
    (unknown_command_reply unitSub () "frobnicate now" "frobnicate" (some "now")
      (by decide) (by decide)).trans (by decide)⟩

/-- C3: for a line `play <id>` with a non-empty (in-buffer) track id,
a successful `track_manager_play` yields the success outcome and reply
`OK: Playing track <id>`, and a refusal yields the failure outcome and
reply `ERROR: Failed to play track <id>`; the subsystem is called on
exactly that id. -/
theorem play_roundtrip {σ : Type} (mgr : Subsystem σ) (st : σ) (id : String)
    (hne : id ≠ "") (hlen : id.length ≤ 250) :
    ((mgr.play st id).1 = true →
      process_command ("play " ++ id) mgr st 1024 =
        ⟨0, "OK: Playing track " ++ id, (mgr.play st id).2,
          [SubsysCall.play id]⟩) ∧
    ((mgr.play st id).1 = false →
      process_command ("play " ++ id) mgr st 1024 =
        ⟨-1, "ERROR: Failed to play track " ++ id, (mgr.play st id).2,
          [SubsysCall.play id]⟩) := by
  have hm : id.data ≠ [] := by
    intro hh
    apply hne
    cases id with
    | mk l =>
      have h2 : l = [] := hh
      subst h2
      rfl
  have hlen2 : id.data.length ≤ 250 := hlen
  have htrunc : truncateToCmdBuf ("play " ++ id) = "play " ++ id := by
    unfold truncateToCmdBuf
    rw [List.take_of_length_le]
    show ("play ".data ++ id.data).length ≤ 255
    rw [List.length_append]
    have h5 : "play ".data.length = 5 := rfl
    omega
  have hsplit : splitCmd ("play " ++ id) = some ("play", some id) :=
    (splitCmd_keyword_arg "play".data id.data (by decide) (by decide) hm).1
  have hfind : (COMMANDS σ).find? (fun p => p.1 == "play") =
      some ("play", handle_play) := rfl
  have hrun : process_command ("play " ++ id) mgr st 1024 =
      handle_play mgr st (some id) 1024 := by
    simp only [process_command, htrunc, hsplit, hfind]
  have hok : snprintfStr 1024 ("OK: Playing track " ++ id) =
      "OK: Playing track " ++ id := by
    apply snprintfStr_of_le
    show ("OK: Playing track ".data ++ id.data).length ≤ 1023
    rw [List.length_append]
    have h18 : "OK: Playing track ".data.length = 18 := rfl
    omega
  have hfail : snprintfStr 1024 ("ERROR: Failed to play track " ++ id) =
      "ERROR: Failed to play track " ++ id := by
    apply snprintfStr_of_le
    show ("ERROR: Failed to play track ".data ++ id.data).length ≤ 1023
    rw [List.length_append]
    have h28 : "ERROR: Failed to play track ".data.length = 28 := rfl
    omega
  constructor
  · intro hp
    rw [hrun]
    simp [handle_play, hne, hp, hok]
  · intro hp
    rw [hrun]
    simp [handle_play, hne, hp, hfail]

/-- Witness for `play_roundtrip`: the id `track42` against a succeeding
and against a refusing subsystem. -/
theorem play_roundtrip_witness :
    (("track42" : String) ≠ "" ∧ ("track42" : String).length ≤ 250) ∧
    process_command "play track42" unitSub () 1024 =
      ⟨0, "OK: Playing track track42", (), [SubsysCall.play "track42"]⟩ ∧
    process_command "play track42" unitSubFail () 1024 =
      ⟨-1, "ERROR: Failed to play track track42", (),
        [SubsysCall.play "track42"]⟩ :=
  ⟨⟨by decide, by decide⟩,
    ((play_roundtrip unitSub () "track42" (by decide) (by decide)).1
      rfl).trans (by decide),
    ((play_roundtrip unitSubFail () "track42" (by decide) (by decide)).2
      rfl).trans (by decide)⟩

/-- C4 counterexample: on `play  x` (two spaces) the parser keeps the
second space in the argument — the handler receives ` x`, not the `x`
that splitting on the whole whitespace run (`splitSpecRun`, modelled
from the spec text) would give; the reply reproduces the extra space. -/
theorem parser_whitespace_run_cex :
    splitCmd "play  x" = some ("play", some " x") ∧
    splitSpecRun "play  x" = ("play", some "x") ∧
    process_command "play  x" unitSub () 1024 =
      ⟨0, "OK: Playing track  x", (), [SubsysCall.play " x"]⟩ ∧
    (" x" : String) ≠ "x" := by decide

/-- The leading-space skip of the amended description coincides with
what `strtok` does on the buffer head. -/
theorem skipSpaces_eq (l : List Char) :
    skipSpaces l = l.dropWhile (fun c => c == ' ') := by
  induction l with
  | nil => rfl
  | cons c cs ih =>
    simp only [skipSpaces, List.dropWhile_cons, beq_iff_eq]
    by_cases hc : c = ' ' <;> simp [hc, ih]

/-- The first-space scan of the amended description, expressed through
the combinators `splitCmd` is built from. -/
theorem splitAtFirstSpace_eq (l : List Char) :
    splitAtFirstSpace l =
      (l.takeWhile (fun c => c != ' '),
        match l.dropWhile (fun c => c != ' ') with
        | [] => none
        | _ :: t => some t) := by
  induction l with
  | nil => rfl
  | cons c cs ih =>
    simp only [splitAtFirstSpace, List.takeWhile_cons, List.dropWhile_cons,
      bne_iff_ne, ne_eq]
    by_cases hc : c = ' ' <;> simp [hc, ih]

/-- C4 amended: on every raw input line the parser first skips leading
space characters (an all-space or empty line fails as the empty
command) and then splits at the first space character, not at a whole
whitespace run: the keyword is everything before that space, and the
argument is exactly everything after that single space — further
spaces of the run and any embedded whitespace included, with no
further splitting — and is absent when no space follows the keyword or
when nothing follows that space. (`splitFirstSpace` transcribes that
description.) -/
theorem parser_first_space_complete (s : String) :
    splitCmd s = splitFirstSpace s := by
  simp only [splitCmd, splitFirstSpace, skipSpaces_eq, splitAtFirstSpace_eq]
  by_cases hl : s.data.dropWhile (fun c => c == ' ') = []
  · simp [hl]
  · cases hrest : (s.data.dropWhile (fun c => c == ' ')).dropWhile
        (fun c => c != ' ') with
    | nil => simp [hl, hrest]
    | cons x t =>
      by_cases ht : t = [] <;> simp [hl, hrest, ht]

/-- C7: when socket creation, bind or listen fails (the context having
been allocated), `socket_server_init` returns NULL, every descriptor it
opened is closed, and the context is freed — no partial listener
remains. -/
theorem init_failure_cleanup (os : OsBehavior) (halloc : os.alloc_ok = true)
    (hfail : os.socket_fd = none ∨ os.bind_ok = false ∨ os.listen_ok = false) :
    (socket_server_init os).1 = none ∧
    ResAction.free_ctx ∈ (socket_server_init os).2 ∧
    (∀ fd : Nat, ResAction.open_fd fd ∈ (socket_server_init os).2 →
      ResAction.close_fd fd ∈ (socket_server_init os).2) := by
  rcases hsf : os.socket_fd with - | fd
  · refine ⟨?_, ?_, ?_⟩ <;> simp [socket_server_init, halloc, hsf]
  · have hbl : os.bind_ok = false ∨ os.listen_ok = false := by
      rcases hfail with h | h | h
      · rw [hsf] at h
        exact absurd h (by simp)
      · exact Or.inl h
      · exact Or.inr h
    rcases hbl with h | h
    · refine ⟨?_, ?_, ?_⟩ <;> simp [socket_server_init, halloc, hsf, h]
    · rcases hb : os.bind_ok with - | -
      · refine ⟨?_, ?_, ?_⟩ <;> simp [socket_server_init, halloc, hsf, hb]
      · refine ⟨?_, ?_, ?_⟩ <;> simp [socket_server_init, halloc, hsf, hb, h]

/-- Witness for `init_failure_cleanup`: allocation succeeds, `bind`
fails. -/
theorem init_failure_cleanup_witness :
    ((OsBehavior.mk true (some 3) false true).alloc_ok = true ∧
      ((OsBehavior.mk true (some 3) false true).socket_fd = none ∨
        (OsBehavior.mk true (some 3) false true).bind_ok = false ∨
        (OsBehavior.mk true (some 3) false true).listen_ok = false)) ∧
    ((socket_server_init (OsBehavior.mk true (some 3) false true)).1 = none ∧
      ResAction.free_ctx ∈
        (socket_server_init (OsBehavior.mk true (some 3) false true)).2 ∧
      (∀ fd : Nat, ResAction.open_fd fd ∈
          (socket_server_init (OsBehavior.mk true (some 3) false true)).2 →
        ResAction.close_fd fd ∈
          (socket_server_init (OsBehavior.mk true (some 3) false true)).2)) :=
  ⟨⟨rfl, Or.inr (Or.inl rfl)⟩,
    init_failure_cleanup (OsBehavior.mk true (some 3) false true) rfl
      (Or.inr (Or.inl rfl))⟩

/-- C8: when `read` on an accepted connection returns zero or a
negative count, no command is processed, nothing is written back, the
connection socket is closed, and the loop goes on to accept the next
connection. -/
theorem read_failure_closes {σ : Type} (mgr : Subsystem σ) (st : σ)
    (bytes_read : Int) (data : String) (h : bytes_read ≤ 0) :
    serve_connection mgr st bytes_read data =
      ⟨[ConnAction.closedConn], st, true⟩ ∧
    (∀ r, ConnAction.processedCmd r ∉
      (serve_connection mgr st bytes_read data).actions) ∧
    (∀ r, ConnAction.wroteResponse r ∉
      (serve_connection mgr st bytes_read data).actions) ∧
    (serve_connection mgr st bytes_read data).keepLooping = true := by
  have hnot : ¬ bytes_read > 0 := not_lt.mpr h
  refine ⟨?_, ?_, ?_, ?_⟩ <;> simp [serve_connection, hnot]

/-- Witness for `read_failure_closes`: a zero-byte read. -/
theorem read_failure_closes_witness :
    ((0 : Int) ≤ 0) ∧
    (serve_connection unitSub () 0 "play x" =
        ⟨[ConnAction.closedConn], (), true⟩ ∧
      (∀ r, ConnAction.processedCmd r ∉
        (serve_connection unitSub () 0 "play x").actions) ∧
      (∀ r, ConnAction.wroteResponse r ∉
        (serve_connection unitSub () 0 "play x").actions) ∧
      (serve_connection unitSub () 0 "play x").keepLooping = true) :=
  ⟨le_refl 0, read_failure_closes unitSub () 0 "play x" (le_refl 0)⟩

/-- A `snprintf` into the 1024-byte response buffer leaves at most 1023
bytes. -/
theorem snprintfStr_len (m : String) : (snprintfStr 1024 m).length ≤ 1023 := by
  show (m.data.take 1023).length ≤ 1023
  rw [List.length_take]
  exact Nat.min_le_left _ _

/-- A response formatted as `<tag-carrying literal> ++ <payload>` keeps
its leading tag through `snprintf` into the 1024-byte buffer. -/
theorem beginsWith_snprintf_append (tag a k : String)
    (hlen : tag.data.length ≤ 1023)
    (htag : a.data.take tag.data.length = tag.data) :
    strBeginsWith tag (snprintfStr 1024 (a ++ k)) = true := by
  show (((a.data ++ k.data).take 1023).take tag.data.length == tag.data) = true
  rw [List.take_take, Nat.min_eq_left hlen]
  have hle : tag.data.length ≤ a.data.length := by
    have hcongr := congrArg List.length htag
    rw [List.length_take] at hcongr
    omega
  rw [List.take_append_of_le_length hle, htag]
  simp

/-- No string begins with both `OK` and `ERROR`. -/
theorem tags_disjoint (s : String) (hok : strBeginsWith "OK" s = true)
    (herr : strBeginsWith "ERROR" s = true) : False := by
  unfold strBeginsWith at hok herr
  rw [beq_iff_eq] at hok herr
  cases hd : s.data with
  | nil =>
    rw [hd] at hok
    exact absurd hok (by decide)
  | cons a t =>
    rw [hd] at hok herr
    have hok2 : a :: t.take 1 = ['O', 'K'] := hok
    have herr2 : a :: t.take 4 = ['E', 'R', 'R', 'O', 'R'] := herr
    injection hok2 with ha hb
    injection herr2 with hc hrest
    rw [ha] at hc
    exact absurd hc (by decide)

/-- A keyword equal to none of the six table entries misses the
registry. -/
theorem COMMANDS_find_none {σ : Type} (cmd : String)
    (h1 : cmd ≠ "play") (h2 : cmd ≠ "stop") (h3 : cmd ≠ "stop-all")
    (h4 : cmd ≠ "list") (h5 : cmd ≠ "status") (h6 : cmd ≠ "reload") :
    (COMMANDS σ).find? (fun p => p.1 == cmd) = none := by
  rw [List.find?_eq_none]
  intro x hx
  simp only [COMMANDS, List.mem_cons, List.not_mem_nil, or_false] at hx
  rcases hx with h | h | h | h | h | h <;> subst h <;>
    simp only [beq_iff_eq] <;> intro he
  · exact h1 he.symm
  · exact h2 he.symm
  · exact h3 he.symm
  · exact h4 he.symm
  · exact h5 he.symm
  · exact h6 he.symm

/-- Output dichotomy for `handle_play`: return 0 with an `OK` reply or
return -1 with an `ERROR` reply, always within the buffer bound. -/
theorem handle_play_out {σ : Type} (mgr : Subsystem σ) (st : σ)
    (arg : Option String) :
    (((handle_play mgr st arg 1024).ret = 0 ∧
        strBeginsWith "OK" (handle_play mgr st arg 1024).response = true) ∨
      ((handle_play mgr st arg 1024).ret = -1 ∧
        strBeginsWith "ERROR" (handle_play mgr st arg 1024).response = true)) ∧
    (handle_play mgr st arg 1024).response.length ≤ 1023 := by
  cases arg with
  | none =>
    refine ⟨Or.inr ⟨rfl, ?_⟩, ?_⟩
    · show strBeginsWith "ERROR" (snprintfStr 1024 "ERROR: Missing track ID") = true
      decide
    · show (snprintfStr 1024 "ERROR: Missing track ID").length ≤ 1023
      decide
  | some tid =>
    by_cases he : tid = ""
    · subst he
      refine ⟨Or.inr ⟨rfl, ?_⟩, ?_⟩
      · show strBeginsWith "ERROR" (snprintfStr 1024 "ERROR: Missing track ID") = true
        decide
      · show (snprintfStr 1024 "ERROR: Missing track ID").length ≤ 1023
        decide
    · cases hp : (mgr.play st tid).1 with
      | false =>
        have hres : handle_play mgr st (some tid) 1024 =
            ⟨-1, snprintfStr 1024 ("ERROR: Failed to play track " ++ tid),
              (mgr.play st tid).2, [SubsysCall.play tid]⟩ := by
          simp [handle_play, he, hp]
        rw [hres]
        exact ⟨Or.inr ⟨rfl, beginsWith_snprintf_append "ERROR"
          "ERROR: Failed to play track " tid (by decide) (by decide)⟩,
          snprintfStr_len _⟩
      | true =>
        have hres : handle_play mgr st (some tid) 1024 =
            ⟨0, snprintfStr 1024 ("OK: Playing track " ++ tid),
              (mgr.play st tid).2, [SubsysCall.play tid]⟩ := by
          simp [handle_play, he, hp]
        rw [hres]
        exact ⟨Or.inl ⟨rfl, beginsWith_snprintf_append "OK"
          "OK: Playing track " tid (by decide) (by decide)⟩,
          snprintfStr_len _⟩

/-- Output dichotomy for `handle_stop`, same shape as for
`handle_play`. -/
theorem handle_stop_out {σ : Type} (mgr : Subsystem σ) (st : σ)
    (arg : Option String) :
    (((handle_stop mgr st arg 1024).ret = 0 ∧
        strBeginsWith "OK" (handle_stop mgr st arg 1024).response = true) ∨
      ((handle_stop mgr st arg 1024).ret = -1 ∧
        strBeginsWith "ERROR" (handle_stop mgr st arg 1024).response = true)) ∧
    (handle_stop mgr st arg 1024).response.length ≤ 1023 := by
  cases arg with
  | none =>
    refine ⟨Or.inr ⟨rfl, ?_⟩, ?_⟩
    · show strBeginsWith "ERROR" (snprintfStr 1024 "ERROR: Missing track ID") = true
      decide
    · show (snprintfStr 1024 "ERROR: Missing track ID").length ≤ 1023
      decide
  | some tid =>
    by_cases he : tid = ""
    · subst he
      refine ⟨Or.inr ⟨rfl, ?_⟩, ?_⟩
      · show strBeginsWith "ERROR" (snprintfStr 1024 "ERROR: Missing track ID") = true
        decide
      · show (snprintfStr 1024 "ERROR: Missing track ID").length ≤ 1023
        decide
    · cases hp : (mgr.stop st tid).1 with
      | false =>
        have hres : handle_stop mgr st (some tid) 1024 =
            ⟨-1, snprintfStr 1024 ("ERROR: Failed to stop track " ++ tid),
              (mgr.stop st tid).2, [SubsysCall.stop tid]⟩ := by
          simp [handle_stop, he, hp]
        rw [hres]
        exact ⟨Or.inr ⟨rfl, beginsWith_snprintf_append "ERROR"
          "ERROR: Failed to stop track " tid (by decide) (by decide)⟩,
          snprintfStr_len _⟩
      | true =>
        have hres : handle_stop mgr st (some tid) 1024 =
            ⟨0, snprintfStr 1024 ("OK: Stopped track " ++ tid),
              (mgr.stop st tid).2, [SubsysCall.stop tid]⟩ := by
          simp [handle_stop, he, hp]
        rw [hres]
        exact ⟨Or.inl ⟨rfl, beginsWith_snprintf_append "OK"
          "OK: Stopped track " tid (by decide) (by decide)⟩,
          snprintfStr_len _⟩

/-- Output dichotomy for `handle_stop_all`. -/
theorem handle_stop_all_out {σ : Type} (mgr : Subsystem σ) (st : σ)
    (arg : Option String) :
    (((handle_stop_all mgr st arg 1024).ret = 0 ∧
        strBeginsWith "OK" (handle_stop_all mgr st arg 1024).response = true) ∨
      ((handle_stop_all mgr st arg 1024).ret = -1 ∧
        strBeginsWith "ERROR" (handle_stop_all mgr st arg 1024).response = true)) ∧
    (handle_stop_all mgr st arg 1024).response.length ≤ 1023 := by
  cases hp : (mgr.stopAll st).1 with
  | false =>
    have hres : handle_stop_all mgr st arg 1024 =
        ⟨-1, snprintfStr 1024 "ERROR: Failed to stop all tracks",
          (mgr.stopAll st).2, [SubsysCall.stopAll]⟩ := by
      simp [handle_stop_all, hp]
    rw [hres]
    refine ⟨Or.inr ⟨rfl, ?_⟩, ?_⟩
    · show strBeginsWith "ERROR" (snprintfStr 1024 "ERROR: Failed to stop all tracks") = true
      decide
    · show (snprintfStr 1024 "ERROR: Failed to stop all tracks").length ≤ 1023
      decide
  | true =>
    have hres : handle_stop_all mgr st arg 1024 =
        ⟨0, snprintfStr 1024 "OK: Stopped all tracks",
          (mgr.stopAll st).2, [SubsysCall.stopAll]⟩ := by
      simp [handle_stop_all, hp]
    rw [hres]
    refine ⟨Or.inl ⟨rfl, ?_⟩, ?_⟩
    · show strBeginsWith "OK" (snprintfStr 1024 "OK: Stopped all tracks") = true
      decide
    · show (snprintfStr 1024 "OK: Stopped all tracks").length ≤ 1023
      decide

/-- Output shape of the placeholder handler `handle_list`. -/
theorem handle_list_out {σ : Type} (mgr : Subsystem σ) (st : σ)
    (arg : Option String) :
    (((handle_list mgr st arg 1024).ret = 0 ∧
        strBeginsWith "OK" (handle_list mgr st arg 1024).response = true) ∨
      ((handle_list mgr st arg 1024).ret = -1 ∧
        strBeginsWith "ERROR" (handle_list mgr st arg 1024).response = true)) ∧
    (handle_list mgr st arg 1024).response.length ≤ 1023 := by
  refine ⟨Or.inl ⟨rfl, ?_⟩, ?_⟩
  · show strBeginsWith "OK"
      (snprintfStr 1024 "OK: Track listing not yet implemented") = true
    decide
  · show (snprintfStr 1024 "OK: Track listing not yet implemented").length ≤ 1023
    decide

/-- Output shape of the placeholder handler `handle_status`. -/
theorem handle_status_out {σ : Type} (mgr : Subsystem σ) (st : σ)
    (arg : Option String) :
    (((handle_status mgr st arg 1024).ret = 0 ∧
        strBeginsWith "OK" (handle_status mgr st arg 1024).response = true) ∨
      ((handle_status mgr st arg 1024).ret = -1 ∧
        strBeginsWith "ERROR" (handle_status mgr st arg 1024).response = true)) ∧
    (handle_status mgr st arg 1024).response.length ≤ 1023 := by
  refine ⟨Or.inl ⟨rfl, ?_⟩, ?_⟩
  · show strBeginsWith "OK"
      (snprintfStr 1024 "OK: Status not yet implemented") = true
    decide
  · show (snprintfStr 1024 "OK: Status not yet implemented").length ≤ 1023
    decide

/-- Output shape of the placeholder handler `handle_reload`. -/
theorem handle_reload_out {σ : Type} (mgr : Subsystem σ) (st : σ)
    (arg : Option String) :
    (((handle_reload mgr st arg 1024).ret = 0 ∧
        strBeginsWith "OK" (handle_reload mgr st arg 1024).response = true) ∨
      ((handle_reload mgr st arg 1024).ret = -1 ∧
        strBeginsWith "ERROR" (handle_reload mgr st arg 1024).response = true)) ∧
    (handle_reload mgr st arg 1024).response.length ≤ 1023 := by
  refine ⟨Or.inl ⟨rfl, ?_⟩, ?_⟩
  · show strBeginsWith "OK" (snprintfStr 1024 "OK: Reload signal sent") = true
    decide
  · show (snprintfStr 1024 "OK: Reload signal sent").length ≤ 1023
    decide

/-- Output dichotomy for the whole dispatcher: every reply carries an
`OK` or `ERROR` tag agreeing with the return value and fits the
1024-byte response buffer. -/
theorem process_command_out {σ : Type} (cmd_str : String) (mgr : Subsystem σ)
    (st : σ) :
    (((process_command cmd_str mgr st 1024).ret = 0 ∧
        strBeginsWith "OK" (process_command cmd_str mgr st 1024).response = true) ∨
      ((process_command cmd_str mgr st 1024).ret = -1 ∧
        strBeginsWith "ERROR"
          (process_command cmd_str mgr st 1024).response = true)) ∧
    (process_command cmd_str mgr st 1024).response.length ≤ 1023 := by
  rcases hs : splitCmd (truncateToCmdBuf cmd_str) with - | ⟨cmd, arg⟩
  · have hres : process_command cmd_str mgr st 1024 =
        ⟨-1, snprintfStr 1024 "ERROR: Empty command", st, []⟩ := by
      simp only [process_command, hs]
    rw [hres]
    refine ⟨Or.inr ⟨rfl, ?_⟩, ?_⟩
    · show strBeginsWith "ERROR" (snprintfStr 1024 "ERROR: Empty command") = true
      decide
    · show (snprintfStr 1024 "ERROR: Empty command").length ≤ 1023
      decide
  · by_cases h1 : cmd = "play"
    · subst h1
      have hfind : (COMMANDS σ).find? (fun p => p.1 == "play") =
          some ("play", handle_play) := rfl
      have hrun : process_command cmd_str mgr st 1024 =
          handle_play mgr st arg 1024 := by
        simp only [process_command, hs, hfind]
      rw [hrun]
      exact handle_play_out mgr st arg
    by_cases h2 : cmd = "stop"
    · subst h2
      have hfind : (COMMANDS σ).find? (fun p => p.1 == "stop") =
          some ("stop", handle_stop) := rfl
      have hrun : process_command cmd_str mgr st 1024 =
          handle_stop mgr st arg 1024 := by
        simp only [process_command, hs, hfind]
      rw [hrun]
      exact handle_stop_out mgr st arg
    by_cases h3 : cmd = "stop-all"
    · subst h3
      have hfind : (COMMANDS σ).find? (fun p => p.1 == "stop-all") =
          some ("stop-all", handle_stop_all) := rfl
      have hrun : process_command cmd_str mgr st 1024 =
          handle_stop_all mgr st arg 1024 := by
        simp only [process_command, hs, hfind]
      rw [hrun]
      exact handle_stop_all_out mgr st arg
    by_cases h4 : cmd = "list"
    · subst h4
      have hfind : (COMMANDS σ).find? (fun p => p.1 == "list") =
          some ("list", handle_list) := rfl
      have hrun : process_command cmd_str mgr st 1024 =
          handle_list mgr st arg 1024 := by
        simp only [process_command, hs, hfind]
      rw [hrun]
      exact handle_list_out mgr st arg
    by_cases h5 : cmd = "status"
    · subst h5
      have hfind : (COMMANDS σ).find? (fun p => p.1 == "status") =
          some ("status", handle_status) := rfl
      have hrun : process_command cmd_str mgr st 1024 =
          handle_status mgr st arg 1024 := by
        simp only [process_command, hs, hfind]
      rw [hrun]
      exact handle_status_out mgr st arg
    by_cases h6 : cmd = "reload"
    · subst h6
      have hfind : (COMMANDS σ).find? (fun p => p.1 == "reload") =
          some ("reload", handle_reload) := rfl
      have hrun : process_command cmd_str mgr st 1024 =
          handle_reload mgr st arg 1024 := by
        simp only [process_command, hs, hfind]
      rw [hrun]
      exact handle_reload_out mgr st arg
    have hfind := COMMANDS_find_none (σ := σ) cmd h1 h2 h3 h4 h5 h6
    have hres : process_command cmd_str mgr st 1024 =
        ⟨-1, snprintfStr 1024 ("ERROR: Unknown command \x27" ++ cmd ++ "\x27"),
          st, []⟩ := by
      simp only [process_command, hs, hfind]
    rw [hres]
    have hassoc : "ERROR: Unknown command \x27" ++ cmd ++ "\x27" =
        "ERROR: Unknown command \x27" ++ (cmd ++ "\x27") := by
      show String.mk (("ERROR: Unknown command \x27".data ++ cmd.data) ++
          "\x27".data) =
        String.mk ("ERROR: Unknown command \x27".data ++
          (cmd.data ++ "\x27".data))
      rw [List.append_assoc]
    refine ⟨Or.inr ⟨rfl, ?_⟩, ?_⟩
    · show strBeginsWith "ERROR"
        (snprintfStr 1024 ("ERROR: Unknown command \x27" ++ cmd ++ "\x27")) = true
      rw [hassoc]
      exact beginsWith_snprintf_append "ERROR" "ERROR: Unknown command \x27"
        (cmd ++ "\x27") (by decide) (by decide)
    · show (snprintfStr 1024
        ("ERROR: Unknown command \x27" ++ cmd ++ "\x27")).length ≤ 1023
      exact snprintfStr_len _

/-- C6: for every input line and subsystem behavior the response of
`process_command` begins with the outcome tag `OK` or `ERROR` and fits
within the 1024-byte response buffer (at most 1023 bytes). -/
theorem response_tagged_bounded {σ : Type} (cmd_str : String)
    (mgr : Subsystem σ) (st : σ) :
    (strBeginsWith "OK" (process_command cmd_str mgr st 1024).response = true ∨
      strBeginsWith "ERROR"
        (process_command cmd_str mgr st 1024).response = true) ∧
    (process_command cmd_str mgr st 1024).response.length ≤ 1023 := by
  obtain ⟨hd, hlen⟩ := process_command_out cmd_str mgr st
  refine ⟨?_, hlen⟩
  rcases hd with ⟨-, h⟩ | ⟨-, h⟩
  · exact Or.inl h
  · exact Or.inr h

/-- C10: the integer result of `process_command` and the response text
agree — the result is 0 exactly when the response begins with `OK` and
negative exactly when it begins with `ERROR`. -/
theorem ret_matches_tag {σ : Type} (cmd_str : String) (mgr : Subsystem σ)
    (st : σ) :
    ((process_command cmd_str mgr st 1024).ret = 0 ↔
      strBeginsWith "OK" (process_command cmd_str mgr st 1024).response = true) ∧
    ((process_command cmd_str mgr st 1024).ret < 0 ↔
      strBeginsWith "ERROR"
        (process_command cmd_str mgr st 1024).response = true) := by
  obtain ⟨hd, -⟩ := process_command_out cmd_str mgr st
  rcases hd with ⟨h0, hok⟩ | ⟨h1, herr⟩
  · refine ⟨iff_of_true h0 hok, iff_of_false ?_ ?_⟩
    · rw [h0]
      omega
    · intro h
      exact tags_disjoint _ hok h
  · refine ⟨iff_of_false ?_ ?_, iff_of_true ?_ herr⟩
    · rw [h1]
      omega
    · intro h
      exact tags_disjoint _ h herr
    · rw [h1]
      omega
